import Mathlib

/-!
Verification development for the FastTravelGraph conversational
flight/hotel-search service.  The Python sources (`nodes.py`, `graph.py`,
`models.py`, `main.py`) are shallowly embedded below: every dynamic state
dictionary becomes a structure of optional fields (one field per key the
code ever reads or writes), every node becomes a pure function, the
language model and the HTTP providers become explicit oracle parameters,
and Python exceptions become `Option` results.  Dates are modelled by a
proleptic Gregorian calendar record; numeric prices are modelled by `ℚ`
(the decimal strings the provider sends are parsed exactly; exponent and
special float forms, which never occur in provider prices, are omitted).
-/

namespace FastTravel

/-! ## Python string helpers -/

/-- A word character in the sense of the `re` module patterns the code uses
(`\b\d+\b`, `\b[A-Z]{3}\b`): ASCII letter, digit or underscore. -/
def isWordChar (c : Char) : Bool :=
  c.isAlpha || c.isDigit || c = '_'

/-- Maximal runs of word characters of a character list, in order.  A
regex match `\b\d+\b` (resp. `\b[A-Z]{3}\b`) is exactly the first such run
that is all digits (resp. exactly three uppercase letters), because word
boundaries forbid a word character on either side of the match. -/
def wordRuns : List Char → List (List Char)
  | [] => []
  | c :: rest =>
    let ts := wordRuns rest
    if isWordChar c then
      match rest with
      | r :: _ =>
        if isWordChar r then
          match ts with
          | t :: ts2 => (c :: t) :: ts2
          | [] => [[c]]
        else [c] :: ts
      | [] => [[c]]
    else ts

def natOfDigits (t : List Char) : Nat :=
  t.foldl (fun n c => n * 10 + (c.toNat - 48)) 0

/-- `re.search(r"\b(\d+)\b", s)` followed by `int(...)`: the first maximal
word-character run consisting solely of digits, as a number. -/
def firstStandaloneInt (s : String) : Option Nat :=
  ((wordRuns s.data).find? (fun t => !t.isEmpty && t.all Char.isDigit)).map natOfDigits

/-- Whether `re.search(r"\b\d+\b", s)` matches. -/
def hasStandaloneInt (s : String) : Bool :=
  (firstStandaloneInt s).isSome

/-- Python truthiness of an optional string (`None` and `""` are falsy). -/
def strTruthy : Option String → Bool
  | some s => s ≠ ""
  | none => false

/-- Python truthiness of an optional number (`None` and `0` are falsy). -/
def natTruthy : Option Nat → Bool
  | some n => n ≠ 0
  | none => false

/-- Python `str.isdigit` on an ASCII string: nonempty, all digits. -/
def pyIsDigitStr (s : String) : Bool :=
  !s.data.isEmpty && s.data.all Char.isDigit

/-- Python `str.isalpha` on an ASCII string: nonempty, all letters. -/
def pyIsAlphaStr (s : String) : Bool :=
  !s.data.isEmpty && s.data.all Char.isAlpha

/-- The whitespace `str.strip()` removes. -/
def pySpace (c : Char) : Bool :=
  c = ' ' || c = '\t' || c = '\n' || c = '\r' || c = '\x0b' || c = '\x0c'

def pyStripChars (cs : List Char) : List Char :=
  ((cs.dropWhile pySpace).reverse.dropWhile pySpace).reverse

/-- Python `str.strip()`. -/
def pyStrip (s : String) : String :=
  String.mk (pyStripChars s.data)

def charToUpper (c : Char) : Char :=
  if c.isLower then Char.ofNat (c.toNat - 32) else c

def charToLower (c : Char) : Char :=
  if c.isUpper then Char.ofNat (c.toNat + 32) else c

/-- Python `str.upper()` (ASCII). -/
def pyUpper (s : String) : String :=
  String.mk (s.data.map charToUpper)

/-- Python `str.lower()` (ASCII). -/
def pyLower (s : String) : String :=
  String.mk (s.data.map charToLower)

/-- Split a character list on a separator character, keeping empty pieces,
like Python `str.split(sep)` for a one-character separator. -/
def splitOnChar (sep : Char) : List Char → List (List Char)
  | [] => [[]]
  | c :: rest =>
    let r := splitOnChar sep rest
    if c = sep then [] :: r
    else
      match r with
      | t :: ts => (c :: t) :: ts
      | [] => [[c]]

/-- `sep.join(parts)`. -/
def joinWith (sep : String) : List String → String
  | [] => ""
  | [x] => x
  | x :: xs => x ++ sep ++ joinWith sep xs

/-! ## Dates

`datetime.strptime(s, "%Y-%m-%d")`, `date` comparison, `timedelta` day
arithmetic and `strftime("%Y-%m-%d")` as used throughout `nodes.py`. -/

structure Date where
  year : Nat
  month : Nat
  day : Nat
deriving DecidableEq, Repr

/-- Linear key giving the calendar order on (valid) dates; months and days
of parsed dates are below 100, so this is the lexicographic order. -/
def Date.key (d : Date) : Nat :=
  d.year * 10000 + d.month * 100 + d.day

instance : LE Date := ⟨fun a b => a.key ≤ b.key⟩
instance : LT Date := ⟨fun a b => a.key < b.key⟩

instance (a b : Date) : Decidable (a ≤ b) :=
  inferInstanceAs (Decidable (a.key ≤ b.key))

instance (a b : Date) : Decidable (a < b) :=
  inferInstanceAs (Decidable (a.key < b.key))

def isLeapYear (y : Nat) : Bool :=
  y % 4 = 0 && (y % 100 ≠ 0 || y % 400 = 0)

def daysInMonth (y m : Nat) : Nat :=
  if m = 2 then (if isLeapYear y then 29 else 28)
  else if m = 4 || m = 6 || m = 9 || m = 11 then 30
  else 31

/-- Parse a group of decimal digits. -/
def parseNatChars (t : List Char) : Option Nat :=
  if !t.isEmpty && t.all Char.isDigit then some (natOfDigits t) else none

/-- `datetime.strptime(s, "%Y-%m-%d")`, returning `none` on `ValueError`:
three dash-separated digit groups, month in 1..12, day valid for the
month, year at most four digits. -/
def parseDate (s : String) : Option Date :=
  match splitOnChar '-' s.data with
  | [ys, ms, ds] =>
    match parseNatChars ys, parseNatChars ms, parseNatChars ds with
    | some y, some m, some d =>
      if ys.length ≤ 4 && ms.length ≤ 2 && ds.length ≤ 2
         && 1 ≤ m && m ≤ 12 && 1 ≤ d && d ≤ daysInMonth y m then
        some ⟨y, m, d⟩
      else none
    | _, _, _ => none
  | _ => none

def nextDay (d : Date) : Date :=
  if d.day < daysInMonth d.year d.month then ⟨d.year, d.month, d.day + 1⟩
  else if d.month < 12 then ⟨d.year, d.month + 1, 1⟩
  else ⟨d.year + 1, 1, 1⟩

/-- `d + timedelta(days = n)` for a nonnegative day count. -/
def addDays (d : Date) : Nat → Date
  | 0 => d
  | n + 1 => nextDay (addDays d n)

def pad2 (n : Nat) : String :=
  if n < 10 then "0" ++ toString n else toString n

def pad4 (n : Nat) : String :=
  if n < 10 then "000" ++ toString n
  else if n < 100 then "00" ++ toString n
  else if n < 1000 then "0" ++ toString n
  else toString n

/-- `strftime("%Y-%m-%d")`. -/
def dateToString (d : Date) : String :=
  pad4 d.year ++ "-" ++ pad2 d.month ++ "-" ++ pad2 d.day

/-- The calendar date of an ISO-8601 timestamp: the portion before the
`T` separator (the whole string if there is none), as parsed by
`datetime.fromisoformat(...)` followed by `strftime("%Y-%m-%d")`.  The
time-of-day portion is not re-validated; no verified property depends on
it. -/
def parseIsoDate (s : String) : Option Date :=
  match splitOnChar 'T' s.data with
  | [] => none
  | dp :: _ => parseDate (String.mk dp)

/-! ## The flight-side conversation state

One optional field per key of `FlightSearchState` (`models.py`) that the
embedded nodes read or write.  Fields the verified nodes never touch
(conversation history, access token, node trace) are omitted. -/

/-- A formatted display offer as produced by `display_results_node`. -/
structure Leg where
  airline : String
  flight_number : String
  departure_airport : String
  arrival_airport : String
  departure_time : String
  arrival_time : String
  duration : String
  stops : Nat
  layovers : List String
deriving DecidableEq, Repr

structure FormattedOffer where
  price : String := "N/A"
  currency : String := "USD"
  search_date : Option String := none
  outbound : Option Leg := none
  return_leg : Option Leg := none
  outbound_arrival_at : Option String := none
  return_departure_at : Option String := none
  offer_id : Option Nat := none
deriving DecidableEq, Repr

/-- A segment endpoint dict (`departure` / `arrival`) of a raw provider
offer: `iataCode` and `at` keys (the `at` key is called `atTime` because
`at` is reserved in Lean). -/
structure RawPoint where
  iataCode : Option String := none
  atTime : Option String := none
deriving DecidableEq, Repr

structure RawSegment where
  departure : RawPoint := {}
  arrival : RawPoint := {}
  carrierCode : Option String := none
  number : Option String := none
deriving DecidableEq, Repr

structure RawItinerary where
  duration : Option String := none
  segments : List RawSegment := []
deriving DecidableEq, Repr

structure RawPrice where
  total : Option String := none
  currency : Option String := none
deriving DecidableEq, Repr

structure RawOffer where
  id : Option String := none
  itineraries : List RawItinerary := []
  price : RawPrice := {}
  searchDate : Option String := none
deriving DecidableEq, Repr

/-- An entry of `dictionaries.locations`. -/
structure LocationEntry where
  cityCode : Option String := none
deriving DecidableEq, Repr

/-- The raw provider response shape (`{"data": [...], "dictionaries": ...}`). -/
structure RawResponse where
  data : List RawOffer := []
  locations : List (String × LocationEntry) := []
deriving DecidableEq, Repr

/-- The dynamically typed `formatted_results` slot: the raw provider dict,
the formatted display list, or missing. -/
inductive FormattedResults where
  | raw (r : RawResponse)
  | fmt (l : List FormattedOffer)
  | absent
deriving DecidableEq, Repr

structure FlightState where
  thread_id : String := ""
  current_message : String := ""
  departure_date : Option String := none
  origin : Option String := none
  destination : Option String := none
  cabin_class : Option String := none
  duration : Option Nat := none
  origin_location_code : Option String := none
  destination_location_code : Option String := none
  normalized_departure_date : Option String := none
  normalized_cabin : Option String := none
  result : Option RawResponse := none
  formatted_results : FormattedResults := .absent
  needs_followup : Bool := true
  info_complete : Bool := false
  followup_question : Option String := none
  followup_count : Nat := 0
deriving Repr

/-! ## `analyze_conversation_node` (nodes.py:184) -/

def defaultMissingInfoMsg : String :=
  "I still need some information to search for flights. Could you help me with the missing details?"

/-- Whether the departure date held in the state fails validation: present
but unparsable by `%Y-%m-%d`, or strictly before `today`. -/
def departureDateBad (today : Date) (s : FlightState) : Bool :=
  strTruthy s.departure_date &&
    (match parseDate (s.departure_date.getD "") with
     | some d => decide (d < today)
     | none => true)

/-- Whether the first loop of `analyze_conversation_node` appends at least
one of the five required fields to `missing_fields`, i.e. some required
field is falsy. -/
def requiredMissing (s : FlightState) : Bool :=
  !(strTruthy s.departure_date && strTruthy s.origin
      && strTruthy s.destination && strTruthy s.cabin_class && natTruthy s.duration)

/-- `analyze_conversation_node`: append every falsy required field to
`missing_fields`, additionally validate a present departure date (clearing
it when stale or malformed), then set the completion flags. -/
def analyze_conversation (today : Date) (s : FlightState) : FlightState :=
  let dateBad := departureDateBad today s
  let dep2 := if dateBad then none else s.departure_date
  if requiredMissing s || dateBad then
    { s with departure_date := dep2, info_complete := false, needs_followup := true,
             followup_question :=
               if strTruthy s.followup_question then s.followup_question
               else some defaultMissingInfoMsg }
  else
    { s with departure_date := dep2, info_complete := true, needs_followup := false,
             followup_question := none }

/-- The completion condition as the specification words it: all five
required fields present and the departure date parses as `YYYY-MM-DD` and
is not strictly before today. -/
def c2_spec_complete (today : Date) (s : FlightState) : Bool :=
  strTruthy s.origin && strTruthy s.destination && strTruthy s.cabin_class
    && natTruthy s.duration &&
    (match s.departure_date with
     | some ds => ds ≠ "" && (match parseDate ds with
        | some d => decide (today ≤ d)
        | none => false)
     | none => false)

theorem Date.not_lt {a b : Date} : ¬ a < b ↔ b ≤ a := by
  change ¬ a.key < b.key ↔ b.key ≤ a.key
  exact Nat.not_lt

theorem Date.not_le {a b : Date} : ¬ a ≤ b ↔ b < a := by
  change ¬ a.key ≤ b.key ↔ b.key < a.key
  exact Nat.not_le

theorem analyze_info_complete_eq (today : Date) (s : FlightState) :
    (analyze_conversation today s).info_complete
      = !(requiredMissing s || departureDateBad today s) := by
  unfold analyze_conversation
  by_cases h : (requiredMissing s || departureDateBad today s) = true
  · simp [h]
  · simp [Bool.not_eq_true] at h
    simp [h]

theorem analyze_departure_date_eq (today : Date) (s : FlightState) :
    (analyze_conversation today s).departure_date
      = (if departureDateBad today s then none else s.departure_date) := by
  unfold analyze_conversation
  by_cases h : (requiredMissing s || departureDateBad today s) = true
  · simp [h]
  · simp [Bool.not_eq_true, Bool.or_eq_false_iff] at h
    simp [h.1, h.2]

/-- C2: after validation, `info_complete` holds exactly when all five
required fields are present and the departure date parses and is not in
the past; a present but stale or unparsable departure date is cleared. -/
theorem c2_validator_characterization (today : Date) (s : FlightState) :
    (analyze_conversation today s).info_complete = c2_spec_complete today s ∧
    (analyze_conversation today s).departure_date
      = (if departureDateBad today s then none else s.departure_date) := by
  refine ⟨?_, analyze_departure_date_eq today s⟩
  rw [analyze_info_complete_eq]
  unfold requiredMissing departureDateBad c2_spec_complete
  generalize strTruthy s.origin = o
  generalize strTruthy s.destination = de
  generalize strTruthy s.cabin_class = cc
  generalize natTruthy s.duration = du
  cases hd : s.departure_date with
  | none => simp [strTruthy]
  | some ds =>
    simp only [strTruthy, Option.getD_some]
    cases hp : parseDate ds with
    | none =>
      simp only [hp]
      cases hds : decide (ds = "") <;>
        cases o <;> cases de <;> cases cc <;> cases du <;> simp [hds]
    | some d =>
      simp only [hp]
      by_cases hlt : d < today
      · have hn : ¬ today ≤ d := fun hle => (Date.not_le.mpr hlt) hle
        simp only [decide_eq_true hlt, decide_eq_false hn]
        cases hds : decide (ds = "") <;>
          cases o <;> cases de <;> cases cc <;> cases du <;> simp [hds]
      · have hle : today ≤ d := Date.not_lt.mp hlt
        simp only [decide_eq_false hlt, decide_eq_true hle]
        cases hds : decide (ds = "") <;>
          cases o <;> cases de <;> cases cc <;> cases du <;> simp [hds]

/-! ## `normalize_location_to_airport_code` (nodes.py:242)

The language model is an oracle parameter `llmRaw` (`none` models an
exception from the client); `hasKey` models `os.getenv("OPENAI_API_KEY")`
being set. -/

/-- The `airport_mappings` fallback table. -/
def airport_mappings : List (String × String) :=
  [("new york", "JFK"), ("nyc", "JFK"), ("new york city", "JFK"),
   ("los angeles", "LAX"), ("la", "LAX"), ("los angeles california", "LAX"),
   ("chicago", "ORD"), ("london", "LHR"), ("paris", "CDG"),
   ("tokyo", "NRT"), ("dubai", "DXB"), ("amsterdam", "AMS"),
   ("frankfurt", "FRA"), ("madrid", "MAD"), ("rome", "FCO"),
   ("barcelona", "BCN"), ("milan", "MXP"), ("zurich", "ZRH")]

/-- `re.findall(r"\b[A-Z]{3}\b", s)[0]`: the first maximal word run that
is exactly three uppercase letters. -/
def findFirstUpper3 (s : String) : Option String :=
  ((wordRuns s.data).find? (fun t => t.length == 3 && t.all Char.isUpper)).map
    (fun t => String.mk t)

/-- The post-processing the node applies to a model response: strip and
uppercase, take the first three-letter code found by the pattern, or the
whole response when it is itself three letters. -/
def extractLLMCode (resp : String) : Option String :=
  let up := pyUpper (pyStrip resp)
  match findFirstUpper3 up with
  | some c => some c
  | none => if up.data.length == 3 && pyIsAlphaStr up then some up else none

/-- The model-assisted lookup step: only attempted when the key is set;
`none` when the client raises or no code can be extracted. -/
def llmAirportLookup (hasKey : Bool) (llmRaw : String → Option String)
    (location : String) : Option String :=
  if hasKey then (llmRaw location).bind extractLLMCode else none

/-- `normalize_location_to_airport_code`, mirroring the source control
flow: empty guard, three-letter passthrough, then the `try` block with the
model lookup (returning on success), then the static table, then the first
three characters uppercased. -/
def normalize_location_to_airport_code (hasKey : Bool)
    (llmRaw : String → Option String) (location : String) : String :=
  if location = "" then ""
  else if (pyStripChars location.data).length == 3 && pyIsAlphaStr location then pyUpper location
  else
    match llmAirportLookup hasKey llmRaw location with
    | some code => code
    | none =>
      match airport_mappings.lookup (pyStrip (pyLower location)) with
      | some code => code
      | none => String.mk ((location.data.take 3).map charToUpper)

/-- The priority order exactly as the claim words it: static table first,
model-assisted lookup only when the table has no entry, first three
letters last. -/
def c8_claim_order (hasKey : Bool) (llmRaw : String → Option String)
    (location : String) : String :=
  if location = "" then ""
  else if (pyStripChars location.data).length == 3 && pyIsAlphaStr location then pyUpper location
  else
    match airport_mappings.lookup (pyStrip (pyLower location)) with
    | some code => code
    | none =>
      match llmAirportLookup hasKey llmRaw location with
      | some code => code
      | none => String.mk ((location.data.take 3).map charToUpper)

/-- The amended priority order: model-assisted lookup first (when a key is
present), the static table only when the model yields no code, first three
letters last. -/
def c8_amended_order (hasKey : Bool) (llmRaw : String → Option String)
    (location : String) : String :=
  if location = "" then ""
  else if (pyStripChars location.data).length == 3 && pyIsAlphaStr location then pyUpper location
  else
    ((llmAirportLookup hasKey llmRaw location).orElse
        (fun _ => airport_mappings.lookup (pyStrip (pyLower location)))).getD
      (String.mk ((location.data.take 3).map charToUpper))

/-- C8 counterexample: with an API key present and a model that answers
`"ZZZ"`, the input `"london"` normalizes to `"ZZZ"`, although the static
table maps it to `"LHR"` and the claim requires the table to win. -/
theorem c8_counterexample :
    normalize_location_to_airport_code true (fun _ => some "ZZZ") "london" = "ZZZ"
    ∧ c8_claim_order true (fun _ => some "ZZZ") "london" = "LHR"
    ∧ ("ZZZ" : String) ≠ "LHR" := by
  refine ⟨by decide, by decide, by decide⟩

/-- C8 amended: the normalizer passes exact three-letter input through
uppercased and otherwise resolves in the priority order model lookup,
static table, first three letters. -/
theorem c8_priority_order (hasKey : Bool) (llmRaw : String → Option String)
    (location : String) :
    normalize_location_to_airport_code hasKey llmRaw location
      = c8_amended_order hasKey llmRaw location := by
  unfold normalize_location_to_airport_code c8_amended_order
  split_ifs
  · rfl
  · rfl
  · cases llmAirportLookup hasKey llmRaw location with
    | some c => simp [Option.orElse]
    | none =>
      cases h : airport_mappings.lookup (pyStrip (pyLower location)) with
      | some c => simp [Option.orElse, h]
      | none => simp [Option.orElse, h]

/-! ## `format_body_node` (nodes.py:336) and
`get_flight_offers_node` (nodes.py:448) -/

structure DepartureRange where
  date : String
  time : String
deriving DecidableEq, Repr

structure OriginDestination where
  id : String
  originLocationCode : String
  destinationLocationCode : String
  departureDateTimeRange : DepartureRange
deriving DecidableEq, Repr

structure Traveler where
  id : String
  travelerType : String
deriving DecidableEq, Repr

structure CabinRestriction where
  cabin : String
  coverage : String
  originDestinationIds : List String
deriving DecidableEq, Repr

structure SearchCriteria where
  maxFlightOffers : Nat
  cabinRestrictions : List CabinRestriction
deriving DecidableEq, Repr

structure RequestBody where
  currencyCode : String
  originDestinations : List OriginDestination
  travelers : List Traveler
  sources : List String
  searchCriteria : SearchCriteria
deriving DecidableEq, Repr

/-- `format_flight_offers_body`: one outbound origin-destination and, when
a duration is given, a return leg dated `departure_date + duration` days.
`none` models the `ValueError` `strptime` raises on an unparsable
departure date. -/
def format_flight_offers_body (origin destination departure_date cabin : String)
    (duration : Option Nat) : Option RequestBody :=
  let od1 : OriginDestination :=
    ⟨"1", origin, destination, ⟨departure_date, "10:00:00"⟩⟩
  let mkBody : List OriginDestination → RequestBody := fun ods =>
    { currencyCode := "EGP"
      originDestinations := ods
      travelers := [⟨"1", "ADULT"⟩]
      sources := ["GDS"]
      searchCriteria :=
        { maxFlightOffers := 5
          cabinRestrictions := [⟨cabin, "MOST_SEGMENTS", ods.map (·.id)⟩] } }
  match duration with
  | none => some (mkBody [od1])
  | some dur =>
    match parseDate departure_date with
    | none => none
    | some d =>
      let od2 : OriginDestination :=
        ⟨"2", destination, origin, ⟨dateToString (addDays d dur), "10:00:00"⟩⟩
      some (mkBody [od1, od2])

/-- One iteration of the day loop in `get_flight_offers_node`, acting on
the `originDestinations` list that all three shallow body copies share:
overwrite the first leg date with the query date and, when the body has a
return leg and the state has a truthy duration, the second leg date with
the query date plus the duration.  (The query-date string the code feeds
back through `strptime` is the `strftime` of `start + offset`, so the
`Date` value is passed directly.) -/
def mutateSharedODs (ods : List OriginDestination) (qd : Date)
    (duration : Option Nat) : List OriginDestination :=
  match ods with
  | [] => []
  | od0 :: rest =>
    let od0b := { od0 with departureDateTimeRange :=
      { od0.departureDateTimeRange with date := dateToString qd } }
    match rest, duration with
    | od1 :: rest2, some dur =>
      if dur ≠ 0 then
        od0b :: { od1 with departureDateTimeRange :=
          { od1.departureDateTimeRange with date := dateToString (addDays qd dur) } } :: rest2
      else od0b :: rest
    | _, _ => od0b :: rest

/-- The shared `originDestinations` list after the whole day loop has run
(offsets 0, 1, 2 in order). -/
def flightOffersFinalODs (b : RequestBody) (start : Date)
    (duration : Option Nat) : List OriginDestination :=
  [0, 1, 2].foldl (fun ods off => mutateSharedODs ods (addDays start off) duration)
    b.originDestinations

/-- The three day-request bodies as the provider receives them.  The loop
builds three `dict(...)` shallow copies whose `originDestinations` key all
reference one shared list, mutates that list on every iteration, and the
worker pool serializes the bodies only after the loop has finished — so
every executed body carries the final mutation. -/
def flightOffersExecutedBodies (b : RequestBody) (start : Date)
    (duration : Option Nat) : List RequestBody :=
  [0, 1, 2].map (fun _ => { b with originDestinations := flightOffersFinalODs b start duration })

/-- The `query_date` tag paired with each body (used for `_search_date`). -/
def flightOffersDayTags (start : Date) : List String :=
  [0, 1, 2].map (fun off => dateToString (addDays start off))

/-- C1: on the complete state (CAI to CDG, 2025-08-13, 7 days) the code
builds and executes three requests, but all three carry the outbound date
2025-08-15 and return date 2025-08-22 — the dates of the last window day —
instead of the per-day shifted dates the claim requires. -/
theorem c1_shared_body_mutation_eval :
    (format_flight_offers_body "CAI" "CDG" "2025-08-13" "ECONOMY" (some 7)).map
        (fun b => (flightOffersExecutedBodies b ⟨2025, 8, 13⟩ (some 7)).map
          (fun r => r.originDestinations.map (fun od => od.departureDateTimeRange.date)))
      = some [["2025-08-15", "2025-08-22"],
              ["2025-08-15", "2025-08-22"],
              ["2025-08-15", "2025-08-22"]]
    ∧ ("2025-08-15" : String) ≠ "2025-08-13"
    ∧ flightOffersDayTags ⟨2025, 8, 13⟩ = ["2025-08-13", "2025-08-14", "2025-08-15"] := by
  refine ⟨by decide, by decide, by decide⟩

/-! ## `display_results_node` (nodes.py:525) -/

/-- `format_duration`: turn `PTnHnM` into human units. -/
def format_duration (s : String) : String :=
  if !(match s.data with | 'P' :: 'T' :: _ => true | _ => false) then s
  else
    let rest := s.data.drop 2
    let hparts := splitOnChar 'H' rest
    let hasH := hparts.length > 1
    let hpart := hparts.headD []
    let hours := if hasH && !hpart.isEmpty && hpart.all Char.isDigit then natOfDigits hpart else 0
    let rest2 := if hasH then hparts.tail.headD [] else rest
    let mparts := splitOnChar 'M' rest2
    let mpart := mparts.headD []
    let minutes :=
      if mparts.length > 1 && !mpart.isEmpty && mpart.all Char.isDigit then natOfDigits mpart else 0
    if hours > 0 && minutes > 0 then toString hours ++ "h " ++ toString minutes ++ "m"
    else if hours > 0 then toString hours ++ "h"
    else if minutes > 0 then toString minutes ++ "m"
    else "N/A"

/-- The `HH:MM` rendering of an ISO timestamp, `none` when
`datetime.fromisoformat` raises.  A date-only string renders as midnight;
the time digits are validated as two digit pairs. -/
def parseIsoHM (s : String) : Option String :=
  match splitOnChar 'T' s.data with
  | [dp] => (parseDate (String.mk dp)).map (fun _ => "00:00")
  | [dp, tp] =>
    match parseDate (String.mk dp) with
    | none => none
    | some _ =>
      match tp with
      | h1 :: h2 :: ':' :: m1 :: m2 :: _ =>
        if h1.isDigit && h2.isDigit && m1.isDigit && m2.isDigit then
          some (String.mk [h1, h2, ':', m1, m2])
        else none
      | _ => none
  | _ => none

/-- `format_time`: `strftime("%H:%M")` of the parsed timestamp, the raw
string on parse failure, `"N/A"` on the empty string. -/
def format_time (s : String) : String :=
  if s = "" then "N/A"
  else
    match parseIsoHM s with
    | some hm => hm
    | none => s

/-- `build_leg`: `none` when the itinerary has no segments. -/
def build_leg (it : RawItinerary) : Option Leg :=
  match it.segments with
  | [] => none
  | s0 :: rest =>
    let segs := s0 :: rest
    let layovers := (segs.zip (segs.drop 1)).map (fun p =>
      (p.1.arrival.iataCode.getD "N/A") ++ " "
        ++ format_time (p.1.arrival.atTime.getD "") ++ " → "
        ++ format_time (p.2.departure.atTime.getD ""))
    let lastSeg := rest.getLastD s0
    some
      { airline := s0.carrierCode.getD "N/A"
        flight_number := s0.number.getD "N/A"
        departure_airport := s0.departure.iataCode.getD "N/A"
        arrival_airport := lastSeg.arrival.iataCode.getD "N/A"
        departure_time := format_time (s0.departure.atTime.getD "")
        arrival_time := format_time (lastSeg.arrival.atTime.getD "")
        duration := format_duration (it.duration.getD "")
        stops := segs.length - 1
        layovers := layovers }

/-- One iteration of the formatting loop: `none` models `continue` for a
flight without itineraries. -/
def formatOffer (f : RawOffer) : Option FormattedOffer :=
  match f.itineraries with
  | [] => none
  | it0 :: restIts =>
    some
      { price := f.price.total.getD "N/A"
        currency := f.price.currency.getD "USD"
        search_date := f.searchDate
        outbound := build_leg it0
        return_leg := match restIts with | it1 :: _ => build_leg it1 | [] => none
        outbound_arrival_at := it0.segments.getLast?.bind (fun sg => sg.arrival.atTime)
        return_departure_at :=
          match restIts with
          | it1 :: _ => it1.segments.head?.bind (fun sg => sg.departure.atTime)
          | [] => none
        offer_id := none }

/-- `float(price_string)` restricted to the sign/integer/fraction forms
provider prices take (exponents, `inf`, `nan` and `_` separators never
occur and are omitted); whitespace is stripped as `float` does. -/
def parseDecimal (s : String) : Option ℚ :=
  match pyStripChars s.data with
  | [] => none
  | cs =>
    let signed : ℚ × List Char :=
      match cs with
      | '+' :: r => (1, r)
      | '-' :: r => (-1, r)
      | r => (1, r)
    match splitOnChar '.' signed.2 with
    | [ip] =>
      if !ip.isEmpty && ip.all Char.isDigit then some (signed.1 * natOfDigits ip) else none
    | [ip, fp] =>
      if ip.all Char.isDigit && fp.all Char.isDigit && (!ip.isEmpty || !fp.isEmpty) then
        some (signed.1 * ((natOfDigits ip : ℚ) + (natOfDigits fp : ℚ) / (10 ^ fp.length)))
      else none
    | _ => none

/-- The sort key of the lambda `float(x["price"]) if x["price"] != "N/A"
else float('inf')`: `none` stands for infinity; an offer whose price is
neither `"N/A"` nor parsable has no key (the lambda raises). -/
def pk (o : FormattedOffer) : Option ℚ :=
  if o.price = "N/A" then none else parseDecimal o.price

/-- Whether sorting this offer raises `ValueError` in the key lambda. -/
def hasBadPrice (o : FormattedOffer) : Bool :=
  o.price ≠ "N/A" && (parseDecimal o.price).isNone

/-- Order on sort keys, infinity (`none`) greatest. -/
def optQLEb : Option ℚ → Option ℚ → Bool
  | _, none => true
  | none, some _ => false
  | some a, some b => decide (a ≤ b)

def priceRel (a b : FormattedOffer) : Prop :=
  optQLEb (pk a) (pk b) = true

instance : DecidableRel priceRel := fun a b =>
  inferInstanceAs (Decidable (optQLEb (pk a) (pk b) = true))

instance : IsTotal FormattedOffer priceRel :=
  ⟨fun a b => by
    unfold priceRel
    cases ha : pk a <;> cases hb : pk b <;> simp [optQLEb]
    exact le_total _ _⟩

instance : IsTrans FormattedOffer priceRel :=
  ⟨fun a b c hab hbc => by
    unfold priceRel at *
    cases ha : pk a <;> cases hb : pk b <;> cases hc : pk c <;>
      simp [ha, hb, hc, optQLEb] at *
    exact le_trans hab hbc⟩

/-- Assign 1-based display IDs in list order (the `enumerate(..., start=1)`
loop). -/
def assignIdsFrom (i : Nat) : List FormattedOffer → List FormattedOffer
  | [] => []
  | o :: rest => { o with offer_id := some i } :: assignIdsFrom (i + 1) rest

def noFlightsMsg : String :=
  "No flights found for your search criteria. Would you like to try different dates or destinations?"

def formatResultsErrorMsg : String :=
  "Sorry, I had trouble formatting the flight results."

/-- The merged raw offers of the state (`state.get("result", {}).get("data", [])`). -/
def resultFlights (s : FlightState) : List RawOffer :=
  (s.result.map (fun r => r.data)).getD []

/-- The formatted list before sorting. -/
def preFmt (s : FlightState) : List FormattedOffer :=
  (resultFlights s).filterMap formatOffer

/-- `display_results_node`: format, sort by price (stable; a price that
the key lambda cannot convert raises, which the blanket `except` turns
into an empty list plus an apology), assign 1-based IDs.  The successful
branch also overwrites the thread cache with the same list. -/
def display_results (s : FlightState) : FlightState :=
  if (resultFlights s).isEmpty then
    { s with formatted_results := .fmt [], needs_followup := true,
             followup_question := some noFlightsMsg }
  else
    let formatted := preFmt s
    if formatted.any hasBadPrice then
      { s with formatted_results := .fmt [], needs_followup := true,
               followup_question := some formatResultsErrorMsg }
    else
      { s with formatted_results := .fmt (assignIdsFrom 1 (List.insertionSort priceRel formatted)) }

/-- The displayed offer list of a state after `display_results_node`. -/
def displayedOffers (s : FlightState) : List FormattedOffer :=
  match (display_results s).formatted_results with
  | .fmt l => l
  | _ => []

def eraseId (o : FormattedOffer) : FormattedOffer :=
  { o with offer_id := none }

theorem pk_set_id (o : FormattedOffer) (j : Option Nat) :
    pk { o with offer_id := j } = pk o := rfl

theorem priceRel_set_id (a b : FormattedOffer) (i j : Option Nat)
    (h : priceRel a b) :
    priceRel { a with offer_id := i } { b with offer_id := j } := h

theorem mem_assignIdsFrom {y : FormattedOffer} :
    ∀ {i : Nat} {l : List FormattedOffer}, y ∈ assignIdsFrom i l →
      ∃ o ∈ l, ∃ j, y = { o with offer_id := some j } := by
  intro i l
  induction l generalizing i with
  | nil => intro h; cases h
  | cons o rest ih =>
    intro h
    rcases List.mem_cons.mp h with h1 | h2
    · exact ⟨o, List.mem_cons_self o rest, i, h1⟩
    · obtain ⟨o2, ho2, j, hj⟩ := ih h2
      exact ⟨o2, List.mem_cons_of_mem o ho2, j, hj⟩

theorem sorted_assignIdsFrom {l : List FormattedOffer}
    (h : List.Sorted priceRel l) : ∀ i, List.Sorted priceRel (assignIdsFrom i l) := by
  induction l with
  | nil => intro i; exact List.sorted_nil
  | cons o rest ih =>
    intro i
    rw [List.sorted_cons] at h
    refine List.sorted_cons.mpr ⟨?_, ih h.2 (i + 1)⟩
    intro y hy
    obtain ⟨o2, ho2, j, hj⟩ := mem_assignIdsFrom hy
    subst hj
    exact priceRel_set_id o o2 (some i) (some j) (h.1 o2 ho2)

theorem assignIdsFrom_map_offer_id (i : Nat) (l : List FormattedOffer) :
    (assignIdsFrom i l).map (fun o => o.offer_id)
      = (List.range l.length).map (fun j => some (i + j)) := by
  induction l generalizing i with
  | nil => rfl
  | cons o rest ih =>
    simp only [assignIdsFrom, List.map_cons, List.length_cons, List.range_succ_eq_map,
      List.map_map]
    rw [ih (i + 1)]
    simp only [Nat.add_zero]
    congr 1
    refine List.map_congr_left (fun j _ => ?_)
    simp only [Function.comp, Nat.succ_eq_add_one]
    exact congrArg some (by omega)

theorem assignIdsFrom_map_eraseId (i : Nat) (l : List FormattedOffer) :
    (assignIdsFrom i l).map eraseId = l.map eraseId := by
  induction l generalizing i with
  | nil => rfl
  | cons o rest ih => simp only [assignIdsFrom, List.map_cons, ih]; rfl

theorem not_priceRel_key_ne {x y : FormattedOffer} (h : ¬ priceRel x y) :
    pk y ≠ pk x := by
  intro he
  apply h
  unfold priceRel
  rw [← he]
  cases pk y with
  | none => rfl
  | some q => simp [optQLEb]

theorem filter_key_orderedInsert (k : Option ℚ) (x : FormattedOffer)
    (l : List FormattedOffer) :
    (List.orderedInsert priceRel x l).filter (fun o => decide (pk o = k))
      = if pk x = k then x :: l.filter (fun o => decide (pk o = k))
        else l.filter (fun o => decide (pk o = k)) := by
  induction l with
  | nil =>
    by_cases hx : pk x = k <;> simp [List.orderedInsert, hx]
  | cons y ys ih =>
    by_cases hr : priceRel x y
    · simp only [List.orderedInsert, if_pos hr]
      by_cases hx : pk x = k <;> simp [hx, List.filter_cons]
    · have hne := not_priceRel_key_ne hr
      simp only [List.orderedInsert, if_neg hr]
      by_cases hpy : pk y = k
      · have hpx : ¬ pk x = k := fun hh => hne (hpy.trans hh.symm)
        simp [List.filter_cons, hpy, hpx, ih]
      · by_cases hx : pk x = k <;> simp [List.filter_cons, hpy, hx, ih]

theorem filter_key_insertionSort (k : Option ℚ) (l : List FormattedOffer) :
    (List.insertionSort priceRel l).filter (fun o => decide (pk o = k))
      = l.filter (fun o => decide (pk o = k)) := by
  induction l with
  | nil => rfl
  | cons x xs ih =>
    simp only [List.insertionSort]
    rw [filter_key_orderedInsert]
    by_cases hx : pk x = k <;> simp [hx, ih, List.filter_cons]

theorem sorted_na_last {l : List FormattedOffer}
    (h : List.Sorted priceRel l) :
    l = l.filter (fun o => (pk o).isSome) ++ l.filter (fun o => (pk o).isNone) := by
  induction l with
  | nil => rfl
  | cons x xs ih =>
    rw [List.sorted_cons] at h
    cases hx : pk x with
    | some q =>
      have hs : (x :: xs).filter (fun o => (pk o).isSome)
          = x :: xs.filter (fun o => (pk o).isSome) := by
        simp [List.filter_cons, hx]
      have hn : (x :: xs).filter (fun o => (pk o).isNone)
          = xs.filter (fun o => (pk o).isNone) := by
        simp [List.filter_cons, hx]
      rw [hs, hn, List.cons_append]
      exact congrArg (fun t => x :: t) (ih h.2)
    | none =>
      have hall : ∀ y ∈ xs, pk y = none := by
        intro y hy
        have := h.1 y hy
        unfold priceRel at this
        rw [hx] at this
        cases hyk : pk y with
        | none => rfl
        | some q => rw [hyk] at this; simp [optQLEb] at this
      have hsome : (x :: xs).filter (fun o => (pk o).isSome) = [] := by
        rw [List.filter_eq_nil_iff]
        intro y hy
        rcases List.mem_cons.mp hy with h1 | h2
        · subst h1; simp [hx]
        · simp [hall y h2]
      have hnone : (x :: xs).filter (fun o => (pk o).isNone) = x :: xs := by
        rw [List.filter_eq_self]
        intro y hy
        rcases List.mem_cons.mp hy with h1 | h2
        · subst h1; simp [hx]
        · simp [hall y h2]
      rw [hsome, hnone, List.nil_append]

theorem formatOffer_offer_id_none {f : RawOffer} {o : FormattedOffer}
    (h : formatOffer f = some o) : o.offer_id = none := by
  unfold formatOffer at h
  cases hits : f.itineraries with
  | nil => rw [hits] at h; cases h
  | cons it0 rest =>
    rw [hits] at h
    injection h with h2
    subst h2
    rfl

theorem eraseId_of_id_none {o : FormattedOffer} (h : o.offer_id = none) :
    eraseId o = o := by
  cases o
  simp [eraseId] at h ⊢
  exact h.symm

theorem length_assignIdsFrom (i : Nat) (l : List FormattedOffer) :
    (assignIdsFrom i l).length = l.length := by
  induction l generalizing i with
  | nil => rfl
  | cons o rest ih => simp [assignIdsFrom, ih]

theorem preFmt_offer_id_none {s : FlightState} {o : FormattedOffer}
    (h : o ∈ preFmt s) : o.offer_id = none := by
  obtain ⟨f, _, hf⟩ := List.mem_filterMap.mp h
  exact formatOffer_offer_id_none hf

/-- C6 amended: the formatter either outputs the full merged offer set
sorted stably ascending by price (missing prices, kept as the sentinel
`"N/A"`, at the end) with 1-based positional IDs — or, when some offer has
a price that is neither parsable nor `"N/A"`, the key lambda raises, the
blanket handler empties the output and an apology follow-up is set. -/
theorem c6_formatter_ranking (s : FlightState) :
    ((preFmt s).any hasBadPrice = true ∧ displayedOffers s = [])
    ∨ ((preFmt s).any hasBadPrice = false
        ∧ List.Sorted priceRel (displayedOffers s)
        ∧ (∀ k : Option ℚ,
            ((displayedOffers s).map eraseId).filter (fun o => decide (pk o = k))
              = (preFmt s).filter (fun o => decide (pk o = k)))
        ∧ (displayedOffers s).map (fun o => o.offer_id)
            = (List.range (displayedOffers s).length).map (fun j => some (j + 1))
        ∧ displayedOffers s
            = (displayedOffers s).filter (fun o => (pk o).isSome)
              ++ (displayedOffers s).filter (fun o => (pk o).isNone)) := by
  unfold displayedOffers display_results
  by_cases hflights : (resultFlights s).isEmpty
  · have hpre : preFmt s = [] := by
      unfold preFmt
      rw [List.isEmpty_iff.mp hflights]
      rfl
    right
    simp [hflights, hpre]
  · simp only [hflights, Bool.false_eq_true, if_false]
    by_cases hbad : (preFmt s).any hasBadPrice
    · left
      simp [hbad]
    · right
      simp only [Bool.not_eq_true] at hbad
      simp only [hbad, Bool.false_eq_true, if_false]
      have hsorted : List.Sorted priceRel (List.insertionSort priceRel (preFmt s)) :=
        List.sorted_insertionSort priceRel (preFmt s)
      have houtSorted :
          List.Sorted priceRel (assignIdsFrom 1 (List.insertionSort priceRel (preFmt s))) :=
        sorted_assignIdsFrom hsorted 1
      refine ⟨trivial, houtSorted, ?_, ?_, sorted_na_last houtSorted⟩
      · intro k
        rw [assignIdsFrom_map_eraseId, List.filter_map]
        have hcomp : ((fun o => decide (pk o = k)) ∘ eraseId)
            = (fun o => decide (pk o = k)) := rfl
        rw [hcomp, filter_key_insertionSort]
        have hid : (List.filter (fun o => decide (pk o = k)) (preFmt s)).map eraseId
            = (List.filter (fun o => decide (pk o = k)) (preFmt s)).map id :=
          List.map_congr_left (fun o ho =>
            eraseId_of_id_none (preFmt_offer_id_none (List.mem_of_mem_filter ho)))
        rw [hid, List.map_id]
      · rw [assignIdsFrom_map_offer_id, length_assignIdsFrom]
        exact List.map_congr_left (fun j _ => congrArg some (by omega))

/-- A state whose merged offers carry prices `"abc"` (unparsable) and
`"100"`. -/
def c6BadState : FlightState :=
  { result := some
      { data :=
          [ { id := some "1", itineraries := [{ segments := [] }],
              price := { total := some "abc", currency := some "EGP" } },
            { id := some "2", itineraries := [{ segments := [] }],
              price := { total := some "100", currency := some "EGP" } } ] } }

/-- C6 counterexample: with an offer priced `"abc"` in the merged list,
the formatter outputs the empty list (and an apology), so the output is
not a reordering of the merged offers with unparsable prices last — the
parsable `"100"` offer is dropped too. -/
theorem c6_counterexample :
    ¬ ((displayedOffers c6BadState).map eraseId).Perm (preFmt c6BadState)
    ∧ displayedOffers c6BadState = []
    ∧ (preFmt c6BadState).map (fun o => o.price) = ["abc", "100"]
    ∧ (display_results c6BadState).followup_question = some formatResultsErrorMsg := by
  refine ⟨fun hp => ?_, by decide, by decide, by decide⟩
  have hlen := hp.length_eq
  rw [show displayedOffers c6BadState = [] from by decide] at hlen
  rw [show (preFmt c6BadState).length = 2 from by decide] at hlen
  cases hlen

/-! ## `selection_nodes` (nodes.py:723)

The thread-scoped offer cache `_recent_offers_by_thread` is passed as the
explicit `cache` parameter (the entry for the state's thread, empty list
when absent). -/

structure HotelState where
  thread_id : String := ""
  selected_flight : Option Nat := none
  needs_followup : Bool := false
  followup_question : Option String := none
  city_code : Option String := none
  checkin_date : Option String := none
  checkout_date : Option String := none
  check_in_date : Option String := none
  check_out_date : Option String := none
  currency : Option String := none
  roomQuantty : Option Nat := none
  adult : Option Nat := none
  hotel_id : List String := []
  current_node : Option String := none
deriving DecidableEq, Repr

def noOffersMsg : String :=
  "I couldn\x27t find flight offers to choose from. Would you like me to search again or change dates?"

def invalidIdMsg : String :=
  "That ID doesn\x27t match any of the listed offers. Please choose a valid ID."

def selectPromptHeader : String :=
  "Please enter the flight offer ID you prefer (e.g., 1 or 2).\nAvailable offers:\n"

/-- The offer list the selection step works on, together with the shape
flag `is_amadeus_format` (the raw branch keeps the whole response for the
`dictionaries.locations` lookup). -/
inductive OffersView where
  | am (offers : List RawOffer) (resp : RawResponse)
  | fm (offers : List FormattedOffer)
deriving DecidableEq, Repr

/-- Shape sniffing plus cache fallback: a dict with a `data` key is the
raw provider shape, a list is the display shape, anything else (or an
empty offer list) falls back to the thread cache in display shape. -/
def selOffers (cache : List FormattedOffer) (s : FlightState) : OffersView :=
  match s.formatted_results with
  | .raw r => if r.data.isEmpty then .fm cache else .am r.data r
  | .fmt l => if l.isEmpty then .fm cache else .fm l
  | .absent => .fm cache

def OffersView.length : OffersView → Nat
  | .am l _ => l.length
  | .fm l => l.length

def OffersView.isEmpty : OffersView → Bool
  | .am l _ => l.isEmpty
  | .fm l => l.isEmpty

def amPreviewLine (i : Nat) (o : RawOffer) : String :=
  let oid := o.id.getD (toString (i + 1))
  let price := o.price.total.getD "N/A"
  let curr := o.price.currency.getD ""
  let route :=
    match o.itineraries with
    | it0 :: _ =>
      match it0.segments with
      | sg :: _ => (sg.departure.iataCode.getD "N/A") ++ "→" ++ (sg.arrival.iataCode.getD "N/A")
      | [] => "N/A"
    | [] => "N/A"
  oid ++ ": " ++ route ++ " | " ++ curr ++ " " ++ price

def fmPreviewLine (i : Nat) (o : FormattedOffer) : String :=
  let oid := match o.offer_id with | some n => toString n | none => toString (i + 1)
  let route :=
    match o.outbound with
    | some leg => leg.departure_airport ++ "→" ++ leg.arrival_airport
    | none => "N/A"
  oid ++ ": " ++ route ++ " | " ++ o.currency ++ " " ++ o.price

def previewLines : OffersView → List String
  | .am l _ => l.enum.map (fun p => amPreviewLine p.1 p.2)
  | .fm l => l.enum.map (fun p => fmPreviewLine p.1 p.2)

/-- The selection prompt listing each offer's ID, route and price. -/
def selectionPromptMsg (v : OffersView) : String :=
  selectPromptHeader ++ joinWith "\n" (previewLines v)

def threadIdOf (s : FlightState) : String :=
  if s.thread_id = "" then "default" else s.thread_id

def findAmOffer (l : List RawOffer) (n : Nat) : Option RawOffer :=
  l.find? (fun o => o.id.getD "" == toString n)

def findFmOffer (l : List FormattedOffer) (n : Nat) : Option FormattedOffer :=
  l.find? (fun o =>
    (match o.offer_id with | some m => toString m | none => "") == toString n)

/-- City code in the raw shape: the FIRST outbound segment's arrival
airport, resolved through `dictionaries.locations` when an entry with a
truthy `cityCode` exists, else the airport code itself. -/
def amCityCode (resp : RawResponse) (o : RawOffer) : Option String :=
  match o.itineraries with
  | it0 :: _ =>
    match it0.segments with
    | sg :: _ =>
      match sg.arrival.iataCode with
      | some airport =>
        if airport = "" then none
        else
          match resp.locations.lookup airport with
          | some entry =>
            match entry.cityCode with
            | some c => if c = "" then some airport else some c
            | none => some airport
          | none => some airport
      | none => none
    | [] => none
  | [] => none

/-- City code in the display shape: the formatted outbound leg's arrival
airport (which `build_leg` takes from the LAST segment). -/
def fmCityCode (o : FormattedOffer) : Option String :=
  match o.outbound with
  | some leg => if leg.arrival_airport = "" then none else some leg.arrival_airport
  | none => none

/-- The calendar-date rendering of a timestamp field, `none` when the
field is falsy or `fromisoformat` raises. -/
def tsDate (ts? : Option String) : Option String :=
  match ts? with
  | some ts => if ts = "" then none else (parseIsoDate ts).map dateToString
  | none => none

/-- Check-in in the raw shape: the FIRST outbound segment's arrival
timestamp. -/
def amCheckin (o : RawOffer) : Option String :=
  match o.itineraries with
  | it0 :: _ =>
    match it0.segments with
    | sg :: _ => tsDate sg.arrival.atTime
    | [] => none
  | [] => none

def fmCheckin (o : FormattedOffer) : Option String :=
  tsDate o.outbound_arrival_at

/-- Check-out in the raw shape: the first return-leg segment's departure
timestamp. -/
def amCheckout (o : RawOffer) : Option String :=
  match o.itineraries with
  | _ :: it1 :: _ =>
    match it1.segments with
    | sg :: _ => tsDate sg.departure.atTime
    | [] => none
  | _ => none

def fmCheckout (o : FormattedOffer) : Option String :=
  tsDate o.return_departure_at

/-- The `departure_date + duration` fallback for the check-out date. -/
def durationCheckout (s : FlightState) : Option String :=
  if strTruthy s.departure_date && natTruthy s.duration then
    (parseDate (s.departure_date.getD "")).map
      (fun d => dateToString (addDays d (s.duration.getD 0)))
  else none

/-- The final `checkin_date` / `checkout_date` bookkeeping: check-in falls
back to the raw `departure_date` string; a missing check-out falls back to
check-in plus one day, or a copy of check-in when even that string does
not parse; then the constant search defaults are added. -/
def finalizeHotelDates (s : FlightState) (base : HotelState)
    (checkin checkout : Option String) : HotelState :=
  let base2 :=
    match checkin with
    | some ci => { base with checkin_date := some ci }
    | none =>
      if strTruthy s.departure_date then
        { base with checkin_date := some (s.departure_date.getD "") }
      else base
  let base3 :=
    match checkout with
    | some co => { base2 with checkout_date := some co }
    | none =>
      match base2.checkin_date with
      | some ci =>
        match parseDate ci with
        | some d => { base2 with checkout_date := some (dateToString (addDays d 1)) }
        | none => { base2 with checkout_date := some ci }
      | none => base2
  { base3 with currency := some "EGP", roomQuantty := some 1, adult := some 1 }

/-- `selection_nodes`: resolve the offer list (state first, cache
fallback), parse the first standalone integer of the stripped message,
reject the three failure cases with their messages, and on success derive
the hotel state (city code, check-in/check-out) from the chosen offer. -/
def selection_nodes (cache : List FormattedOffer) (s : FlightState) : HotelState :=
  if (selOffers cache s).isEmpty then
    { thread_id := threadIdOf s, needs_followup := true,
      followup_question := some noOffersMsg, current_node := some "selection" }
  else
    match firstStandaloneInt (pyStrip s.current_message) with
    | none =>
      { thread_id := threadIdOf s, needs_followup := true,
        followup_question := some (selectionPromptMsg (selOffers cache s)),
        current_node := some "selection" }
    | some n =>
      if n < 1 || (selOffers cache s).length < n then
        { thread_id := threadIdOf s, needs_followup := true,
          followup_question := some (selectionPromptMsg (selOffers cache s)),
          current_node := some "selection" }
      else
        match selOffers cache s with
        | .am offers resp =>
          match findAmOffer offers n with
          | none =>
            { thread_id := threadIdOf s, needs_followup := true,
              followup_question := some invalidIdMsg, current_node := some "selection" }
          | some sel =>
            finalizeHotelDates s
              { thread_id := threadIdOf s, selected_flight := some n,
                needs_followup := false, current_node := some "selection",
                city_code := amCityCode resp sel }
              (amCheckin sel)
              ((amCheckout sel).orElse (fun _ => durationCheckout s))
        | .fm offers =>
          match findFmOffer offers n with
          | none =>
            { thread_id := threadIdOf s, needs_followup := true,
              followup_question := some invalidIdMsg, current_node := some "selection" }
          | some sel =>
            finalizeHotelDates s
              { thread_id := threadIdOf s, selected_flight := some n,
                needs_followup := false, current_node := some "selection",
                city_code := fmCityCode sel }
              (fmCheckin sel)
              ((fmCheckout sel).orElse (fun _ => durationCheckout s))

theorem head?_append_of_head? {l l2 : List Char} {a : Char}
    (h : l.head? = some a) : (l ++ l2).head? = some a := by
  cases l with
  | nil => cases h
  | cons x xs => simp at h ⊢; exact h

theorem selectionPromptMsg_head (v : OffersView) :
    (selectionPromptMsg v).data.head? = some 'P' := by
  unfold selectionPromptMsg
  rw [String.data_append]
  exact head?_append_of_head? (by decide)

theorem selectionPromptMsg_ne_noOffersMsg (v : OffersView) :
    selectionPromptMsg v ≠ noOffersMsg := by
  intro he
  have h1 := selectionPromptMsg_head v
  rw [he] at h1
  have h2 : noOffersMsg.data.head? = some 'I' := by decide
  rw [h2] at h1
  cases h1

theorem selectionPromptMsg_ne_invalidIdMsg (v : OffersView) :
    selectionPromptMsg v ≠ invalidIdMsg := by
  intro he
  have h1 := selectionPromptMsg_head v
  rw [he] at h1
  have h2 : invalidIdMsg.data.head? = some 'T' := by decide
  rw [h2] at h1
  cases h1

/-- C7: in each of the three failure cases — no offers anywhere, missing
or out-of-range integer, in-range integer matching no offer ID — the
selection step returns only a follow-up prompt: every search/selection
field (`selected_flight`, `city_code`, `checkin_date`, `checkout_date`)
stays unset, and the three case messages are pairwise distinct. -/
theorem c7_selection_failure_cases (cache : List FormattedOffer) (s : FlightState) :
    ((selOffers cache s).isEmpty = true →
        selection_nodes cache s
          = { thread_id := threadIdOf s, needs_followup := true,
              followup_question := some noOffersMsg, current_node := some "selection" })
    ∧ ((selOffers cache s).isEmpty = false →
        (firstStandaloneInt (pyStrip s.current_message) = none
          ∨ (∃ n, firstStandaloneInt (pyStrip s.current_message) = some n
               ∧ (n < 1 ∨ (selOffers cache s).length < n))) →
        selection_nodes cache s
          = { thread_id := threadIdOf s, needs_followup := true,
              followup_question := some (selectionPromptMsg (selOffers cache s)),
              current_node := some "selection" })
    ∧ ((selOffers cache s).isEmpty = false →
        (∀ offers resp n, selOffers cache s = .am offers resp →
          firstStandaloneInt (pyStrip s.current_message) = some n →
          (1 ≤ n ∧ n ≤ offers.length) → findAmOffer offers n = none →
          selection_nodes cache s
            = { thread_id := threadIdOf s, needs_followup := true,
                followup_question := some invalidIdMsg, current_node := some "selection" }))
    ∧ (∀ v : OffersView,
        selectionPromptMsg v ≠ noOffersMsg ∧ selectionPromptMsg v ≠ invalidIdMsg)
    ∧ noOffersMsg ≠ invalidIdMsg := by
  refine ⟨?_, ?_, ?_, fun v => ⟨selectionPromptMsg_ne_noOffersMsg v,
    selectionPromptMsg_ne_invalidIdMsg v⟩, by decide⟩
  · intro hv
    unfold selection_nodes
    simp [hv]
  · intro hv hcase
    unfold selection_nodes
    simp only [hv, Bool.false_eq_true, if_false]
    rcases hcase with hnone | ⟨n, hn, hrange⟩
    · rw [hnone]
    · rw [hn]
      dsimp only
      split
      · rfl
      · next hcond =>
        exfalso
        apply hcond
        simp only [Bool.or_eq_true, decide_eq_true_eq]
        rcases hrange with h1 | h2
        · exact Or.inl h1
        · exact Or.inr h2
  · intro hv offers resp n hview hn hrange hfind
    unfold selection_nodes
    simp only [hv, Bool.false_eq_true, if_false]
    rw [hn]
    have hr : (decide (n < 1) || decide ((selOffers cache s).length < n)) = false := by
      rw [hview]
      simp only [OffersView.length, Bool.or_eq_false_iff, decide_eq_false_iff_not]
      constructor <;> omega
    simp only [hr, Bool.false_eq_true, if_false]
    rw [hview]
    dsimp only
    rw [hfind]

/-- The check-in/check-out bookkeeping never sets a check-in without a
check-out (the check-out fallback chain bottoms out at check-in + 1 day or
a copy of check-in). -/
theorem finalizeHotelDates_checkin_checkout (s : FlightState) (base : HotelState)
    (ci co : Option String) :
    ((finalizeHotelDates s base ci co).checkin_date).isSome = true →
      ((finalizeHotelDates s base ci co).checkout_date).isSome = true := by
  unfold finalizeHotelDates
  cases ci with
  | some c =>
    cases co with
    | some c2 => intro _; rfl
    | none => cases hpc : parseDate c <;> simp [hpc]
  | none =>
    by_cases hdep : strTruthy s.departure_date = true
    · simp only [hdep, if_true]
      cases co with
      | some c2 => intro _; rfl
      | none => cases hpc : parseDate (s.departure_date.getD "") <;> simp [hpc]
    · simp only [Bool.not_eq_true] at hdep
      simp only [hdep, Bool.false_eq_true, if_false]
      cases co with
      | some c2 => intro _; rfl
      | none =>
        cases hbc : base.checkin_date with
        | some c => cases hpc : parseDate c <;> simp [hpc]
        | none => simp [hbc]

/-- C10: whichever branch the selection step takes, the returned hotel
state never holds a check-in date without a check-out date. -/
theorem c10_checkin_implies_checkout (cache : List FormattedOffer) (s : FlightState) :
    ((selection_nodes cache s).checkin_date).isSome = true →
      ((selection_nodes cache s).checkout_date).isSome = true := by
  unfold selection_nodes
  by_cases hv : (selOffers cache s).isEmpty = true
  · simp [hv]
  · simp only [Bool.not_eq_true] at hv
    simp only [hv, Bool.false_eq_true, if_false]
    cases hsel : firstStandaloneInt (pyStrip s.current_message) with
    | none => simp
    | some n =>
      dsimp only
      split
      · simp
      · cases hview : selOffers cache s with
        | am offers resp =>
          cases hfind : findAmOffer offers n with
          | none => simp [hfind]
          | some sel =>
            simp only [hfind]
            exact finalizeHotelDates_checkin_checkout _ _ _ _
        | fm offers =>
          cases hfind : findFmOffer offers n with
          | none => simp [hfind]
          | some sel =>
            simp only [hfind]
            exact finalizeHotelDates_checkin_checkout _ _ _ _

/-! ## Concrete provider data (the repository's own test fixtures,
abridged to the fields the embedded nodes read) -/

def testLocations : List (String × LocationEntry) :=
  [("CDG", { cityCode := some "PAR" }), ("KEF", { cityCode := some "REK" }),
   ("JFK", { cityCode := some "NYC" })]

/-- Offer `"1"` of the test fixture: direct JFK→CDG outbound arriving
2025-08-13T20:00, return departing CDG 2025-08-20T10:30. -/
def rawOffer1 : RawOffer :=
  { id := some "1"
    itineraries :=
      [ { duration := some "PT4H"
          segments :=
            [ { departure := { iataCode := some "JFK", atTime := some "2025-08-13T10:00:00" }
                arrival := { iataCode := some "CDG", atTime := some "2025-08-13T20:00:00" }
                carrierCode := some "6X", number := some "1563" } ] },
        { duration := some "PT8H15M"
          segments :=
            [ { departure := { iataCode := some "CDG", atTime := some "2025-08-20T10:30:00" }
                arrival := { iataCode := some "JFK", atTime := some "2025-08-20T12:45:00" }
                carrierCode := some "6X", number := some "1300" } ] } ]
    price := { total := some "12139.00", currency := some "EGP" } }

/-- A raw-shape state in which offer `"1"` is selected by the message `"1"`. -/
def c5SelState : FlightState :=
  { thread_id := "t1", current_message := "1",
    formatted_results := .raw { data := [rawOffer1], locations := testLocations } }

/-- A connecting offer (id `"1"`): outbound JFK→KEF (arriving late on
2025-08-13) then KEF→CDG (arriving 2025-08-14T13:00). -/
def rawOfferConnecting : RawOffer :=
  { id := some "1"
    itineraries :=
      [ { duration := some "PT12H35M"
          segments :=
            [ { departure := { iataCode := some "JFK", atTime := some "2025-08-13T20:25:00" }
                arrival := { iataCode := some "KEF", atTime := some "2025-08-13T23:50:00" }
                carrierCode := some "FI", number := some "614" },
              { departure := { iataCode := some "KEF", atTime := some "2025-08-14T07:35:00" }
                arrival := { iataCode := some "CDG", atTime := some "2025-08-14T13:00:00" }
                carrierCode := some "FI", number := some "542" } ] },
        { duration := some "PT11H10M"
          segments :=
            [ { departure := { iataCode := some "CDG", atTime := some "2025-08-20T17:00:00" }
                arrival := { iataCode := some "KEF", atTime := some "2025-08-20T18:30:00" } },
              { departure := { iataCode := some "KEF", atTime := some "2025-08-20T19:55:00" }
                arrival := { iataCode := some "JFK", atTime := some "2025-08-20T22:10:00" } } ] } ]
    price := { total := some "23576.00", currency := some "EGP" } }

def c4RawState : FlightState :=
  { thread_id := "t2", current_message := "1",
    formatted_results := .raw { data := [rawOfferConnecting], locations := testLocations } }

/-- C4: selecting the connecting offer in the raw provider shape derives
the hotel city from the FIRST outbound segment's arrival (the layover
airport KEF, mapped to REK) and the check-in from that segment's arrival
date 2025-08-13 — not from the leg's final arrival CDG (city PAR, date
2025-08-14) as the claim and the repository's own test expectations
require. -/
theorem c4_first_segment_eval :
    (selection_nodes [] c4RawState).city_code = some "REK"
    ∧ (selection_nodes [] c4RawState).checkin_date = some "2025-08-13"
    ∧ (testLocations.lookup "CDG").bind (fun e => e.cityCode) = some "PAR"
    ∧ tsDate (some "2025-08-14T13:00:00") = some "2025-08-14"
    ∧ (some "REK" : Option String) ≠ some "PAR"
    ∧ (some "2025-08-13" : Option String) ≠ some "2025-08-14" := by
  refine ⟨by decide, by decide, by decide, by decide, by decide, by decide⟩

/-! ## `get_hotel_offers_node` (nodes.py:1010) -/

structure HotelOffersParams where
  hotelIds : String
  checkInDate : String
  checkOutDate : String
  currencyCode : String
deriving DecidableEq, Repr

/-- The query parameters `get_hotel_offers_node` sends to the lodging
provider (`none` models the early return when no hotel IDs are in state).
The node reads the keys `check_in_date` / `check_out_date` — which
nothing in the program ever writes — and defaults to today and tomorrow. -/
def get_hotel_offers_params (today : Date) (s : HotelState) : Option HotelOffersParams :=
  if s.hotel_id.isEmpty then none
  else some
    { hotelIds := joinWith "," s.hotel_id
      checkInDate := s.check_in_date.getD (dateToString today)
      checkOutDate := s.check_out_date.getD (dateToString (addDays today 1))
      currencyCode := "EGP" }

/-- C5: the selection stores the derived window under `checkin_date` /
`checkout_date` (2025-08-13 / 2025-08-20), but the hotel-offer request
reads `check_in_date` / `check_out_date`, which stay unset, so the request
goes out with the defaults today/tomorrow (here 2025-01-15/2025-01-16)
instead of the stored window. -/
theorem c5_key_mismatch_eval :
    (selection_nodes [] c5SelState).checkin_date = some "2025-08-13"
    ∧ (selection_nodes [] c5SelState).checkout_date = some "2025-08-20"
    ∧ (selection_nodes [] c5SelState).check_in_date = none
    ∧ (selection_nodes [] c5SelState).check_out_date = none
    ∧ (get_hotel_offers_params ⟨2025, 1, 15⟩
          { selection_nodes [] c5SelState with hotel_id := ["H1", "H2"] }).map
        (fun p => (p.checkInDate, p.checkOutDate))
      = some ("2025-01-15", "2025-01-16")
    ∧ ("2025-01-15" : String) ≠ "2025-08-13" := by
  refine ⟨by decide, by decide, by decide, by decide, by decide, by decide⟩

/-- C7 witness: two displayed offers and the out-of-range reply `"99"`
yield exactly the selection prompt, with no selection state set. -/
theorem c7_witness_eval :
    selection_nodes []
        { current_message := "99",
          formatted_results := .fmt
            [ { price := "12139.00", currency := "EGP", offer_id := some 1 },
              { price := "23576.00", currency := "EGP", offer_id := some 2 } ] }
      = { thread_id := "default", needs_followup := true,
          followup_question := some (selectionPromptMsg (selOffers []
            { current_message := "99",
              formatted_results := .fmt
                [ { price := "12139.00", currency := "EGP", offer_id := some 1 },
                  { price := "23576.00", currency := "EGP", offer_id := some 2 } ] })),
          current_node := some "selection" } :=
  (c7_selection_failure_cases []
      { current_message := "99",
        formatted_results := .fmt
          [ { price := "12139.00", currency := "EGP", offer_id := some 1 },
            { price := "23576.00", currency := "EGP", offer_id := some 2 } ] }).2.1
    (by decide)
    (Or.inr ⟨99, by decide, Or.inr (by decide)⟩)

/-- C10 witness: the successful raw-shape selection produces a check-in
date, hence also a check-out date. -/
theorem c10_witness_eval :
    ((selection_nodes [] c5SelState).checkout_date).isSome = true :=
  c10_checkin_implies_checkout [] c5SelState (by decide)

/-! ## `check_info_complete` (graph.py:26) and
`initialize_state_from_thread` (graph.py:127) -/

/-- Python truthiness of the `formatted_results` slot: a raw response dict
is a nonempty dict (truthy even when its `data` list is empty), a display
list is truthy when nonempty, a missing slot is falsy. -/
def frTruthy : FormattedResults → Bool
  | .raw _ => true
  | .fmt l => !l.isEmpty
  | .absent => false

/-- The conditional router run after extraction/validation: any bare
integer in the message routes to selection when offers exist in state or
cache; otherwise route on `info_complete`. -/
def check_info_complete (cache : List FormattedOffer) (s : FlightState) : String :=
  if hasStandaloneInt s.current_message && (frTruthy s.formatted_results || !cache.isEmpty) then
    "selection_request"
  else if s.info_complete then "normalize_info"
  else "ask_followup"

/-- `initialize_state_from_thread`: the fresh per-turn state (all trip
fields empty, `followup_count` zero). -/
def init_state_from_thread (tid msg : String) : FlightState :=
  { thread_id := tid, current_message := msg, needs_followup := true,
    info_complete := false, followup_question := none, followup_count := 0 }

/-- The claim's routing condition for C9: the message's first standalone
integer matches an in-state or cached offer ID. -/
def c9_offerIds (cache : List FormattedOffer) (s : FlightState) : List Nat :=
  ((match s.formatted_results with
    | .fmt l => l
    | _ => []) ++ cache).filterMap (fun o => o.offer_id)

def c9DisplayedState : FlightState :=
  { current_message := "99", info_complete := false,
    formatted_results := .fmt [{ price := "12139.00", currency := "EGP", offer_id := some 1 }] }

/-- C9 counterexample: with one displayed offer (ID 1) the message `"99"`
is routed to the selection step although it matches no offer ID — the
router checks only that some integer is present and offers exist, never
that the integer matches an ID. -/
theorem c9_counterexample :
    check_info_complete [] c9DisplayedState = "selection_request"
    ∧ (c9_offerIds [] c9DisplayedState).contains 99 = false := by
  refine ⟨by decide, by decide⟩

/-- C9 amended: the router sends a turn to selection exactly when the
message contains a bare integer (matching or not) and offers exist in
state or cache; a message with no integer follows the normal
collect/search routing instead. -/
theorem c9_routing_characterization (cache : List FormattedOffer) (s : FlightState) :
    check_info_complete cache s = "selection_request"
      ↔ (hasStandaloneInt s.current_message = true
          ∧ (frTruthy s.formatted_results = true ∨ cache ≠ [])) := by
  unfold check_info_complete
  by_cases h : (hasStandaloneInt s.current_message
      && (frTruthy s.formatted_results || !cache.isEmpty)) = true
  · rw [if_pos h]
    constructor
    · intro _
      rcases Bool.and_eq_true_iff.mp h with ⟨h1, h2⟩
      refine ⟨h1, ?_⟩
      rcases Bool.or_eq_true_iff.mp h2 with h3 | h4
      · exact Or.inl h3
      · right
        intro hc
        subst hc
        simp at h4
    · intro _
      rfl
  · rw [if_neg h]
    constructor
    · intro he
      by_cases hic : s.info_complete = true
      · rw [if_pos hic] at he
        exact absurd he (by decide)
      · rw [if_neg hic] at he
        exact absurd he (by decide)
    · rintro ⟨h1, h2⟩
      exfalso
      apply h
      rw [h1, Bool.true_and]
      rcases h2 with h3 | h4
      · rw [h3, Bool.true_or]
      · have hce : cache.isEmpty = false := by
          cases cache with
          | nil => exact absurd rfl h4
          | cons a l => rfl
        rw [hce]
        simp

/-- C9 witness: a state with one displayed offer and an integer message
is routed to selection. -/
theorem c9_witness_eval :
    check_info_complete [] c9DisplayedState = "selection_request" :=
  (c9_routing_characterization [] c9DisplayedState).mpr ⟨by decide, Or.inl (by decide)⟩

/-- C3 counterexample: a four-turn run in which the simulated user never
supplies any trip field — every turn, the fourth included, still routes to
`ask_followup` (a fourth follow-up prompt), never force-advancing to the
search. -/
theorem c3_fourth_followup :
    (["first", "second", "third", "fourth"].map (fun m =>
        check_info_complete []
          (analyze_conversation ⟨2025, 10, 12⟩ (init_state_from_thread "t" m))))
      = ["ask_followup", "ask_followup", "ask_followup", "ask_followup"]
    ∧ ("ask_followup" : String) ≠ "normalize_info" := by
  refine ⟨by decide, by decide⟩

/-- C3 amended: the collecting loop has no safety valve at all — a fresh
turn whose extraction supplies no required field always routes to
`ask_followup` whatever the message and however many turns have elapsed,
and the `followup_count` field stays at zero (nothing ever increments or
reads it). -/
theorem c3_no_force_advance (today : Date) (tid msg : String) :
    check_info_complete [] (analyze_conversation today (init_state_from_thread tid msg))
      = "ask_followup"
    ∧ (analyze_conversation today (init_state_from_thread tid msg)).followup_count = 0 := by
  have hmiss : requiredMissing (init_state_from_thread tid msg) = true := rfl
  constructor
  · have h1 : (analyze_conversation today (init_state_from_thread tid msg)).formatted_results
        = .absent := by
      unfold analyze_conversation init_state_from_thread
      split <;> rfl
    have h2 : (analyze_conversation today (init_state_from_thread tid msg)).info_complete
        = false := by
      rw [analyze_info_complete_eq]
      simp [hmiss]
    unfold check_info_complete
    rw [h1, h2]
    simp [frTruthy]
  · unfold analyze_conversation init_state_from_thread
    split <;> rfl

end FastTravel
